import Mathlib

/-!
Verification of the HXRSnD calibration pipeline
(`src/hxrsnd/plans/calibration.py`) against its natural-language
specification.

The Python plans are embedded shallowly: every plan becomes a Lean
function from an explicit environment (the outcomes the external
collaborators — detector reads, the walk primitive, the scan engine,
the interactive prompt — would deliver) to a pair of

  * a trace of hardware-facing effects (scan requests, walk requests,
    averaged reads, motor set/wait messages, configuration writes), and
  * an `Except PyErr` result mirroring Python's raise/return behaviour.

Detector readings and motor positions are embedded as rationals.
Dataframes are ordered association lists from column name to the
column's values, mirroring the pandas frames the source manipulates.
-/

set_option maxHeartbeats 1000000

namespace HXRSnD

/-- Python exceptions that the calibration module can raise or catch. -/
inductive PyErr where
  | valueError (msg : String)
  | nameError (missing : String)
  | typeError (msg : String)
  | zeroDivisionError
  | indexError
  | runtimeError
  | limitError
  deriving DecidableEq, Repr

/-- Hardware-facing messages a plan can emit.  `readConfigCmd` is the
`motor.read_configuration()` call, `scanCmd` the delegated centroid scan,
`measureCmd` one `measure_average` request, `walkCmd` a `walk_to_pixel`
request on a named calibration motor with the chosen target value,
`moveCmd`/`waitCmd` the grouped `abs_set`/`wait` restoration messages and
`configureCmd` the final `motor.configure` commit. -/
inductive Effect where
  | readConfigCmd
  | scanCmd
  | measureCmd
  | walkCmd (motor : String) (target : ℚ)
  | moveCmd (motor : String) (pos : ℚ) (group : Nat)
  | waitCmd (group : Nat)
  | configureCmd
  deriving DecidableEq, Repr

/-! ### Dataframes as ordered column stores -/

/-- A pandas dataframe, embedded as its ordered list of
(column name, column values) pairs. -/
abbrev Df := List (String × List ℚ)

/-- The ordered list of column names (`df.columns`). -/
def dfCols (df : Df) : List String := df.map Prod.fst

/-- Column access `df[c]`: the first column named `c` (empty if absent). -/
def dfGet : Df → String → List ℚ
  | [], _ => []
  | p :: rest, c => if p.1 = c then p.2 else dfGet rest c

/-- Whether the frame has a column named `c`. -/
def hasCol : Df → String → Bool
  | [], _ => false
  | p :: rest, c => p.1 = c || hasCol rest c

/-- In-place update of every column named `c` (pandas assignment to an
existing column label). -/
def setColGo : Df → String → List ℚ → Df
  | [], _, _ => []
  | p :: rest, c, v => if p.1 = c then (c, v) :: setColGo rest c v
                       else p :: setColGo rest c v

/-- Pandas column assignment `df[c] = v`: update the column if the label
exists, otherwise append a new column at the end. -/
def setCol (df : Df) (c : String) (v : List ℚ) : Df :=
  if hasCol df c then setColGo df c v else df ++ [(c, v)]

/-- Column projection `df[names]`: the selected columns in the requested
order. -/
def selectCols (df : Df) (names : List String) : Df :=
  names.map (fun n => (n, dfGet df n))

/-! ### String helpers mirroring the Python string operations -/

/-- Whether the first character list starts the second. -/
def charsStart : List Char → List Char → Bool
  | [], _ => true
  | _ :: _, [] => false
  | a :: as, b :: bs => a = b && charsStart as bs

/-- Whether the first character list occurs inside the second. -/
def charsIn : List Char → List Char → Bool
  | needle, [] => needle.isEmpty
  | needle, c :: rest => charsStart needle (c :: rest) || charsIn needle rest

/-- Python's substring test `sub in s`. -/
def strContains (s sub : String) : Bool := charsIn sub.data s.data

/-- Python's `s.endswith(suf)`. -/
def strEndsWith (s suf : String) : Bool :=
  charsStart suf.data.reverse s.data.reverse

/-- Python's slice `s[:-4]`. -/
def dropLast4 (s : String) : String :=
  String.mk s.data.dropLast.dropLast.dropLast.dropLast

/-- Python's `s.lower()`, embedded characterwise. -/
def strToLower (s : String) : String :=
  String.mk (s.data.map Char.toLower)

/-! ### The orchestrator `calibrate_motor`

The environment carries the two truthiness flags read out of
`motor.read_configuration()` (`calib` and `motors`), the
`confirm_overwrite` argument and the outcome of the interactive
`input()` prompt (`none` models the prompt raising an exception). -/

structure CalEnv where
  hasCalib : Bool
  hasMotors : Bool
  confirmOverwrite : Bool
  promptResult : Option String

/-- The response the overwrite prompt yields: the entered string, or
`"n"` when the prompt itself raised (the `except` clause substitutes
`"n"`). -/
def promptResponse (env : CalEnv) : String :=
  match env.promptResult with
  | some s => s
  | none => "n"

/-- Embedding of `calibrate_motor` (calibration.py lines 23-72).

The function reads the motor configuration, optionally runs the
overwrite confirmation and returns early when the user declines.  On
every path that falls through the confirmation block, line 48 evaluates
the name `return_to_start`, which is bound nowhere in the function's
scope (it is a parameter of `calibration_scan`, not of
`calibrate_motor`), so CPython raises `NameError` there.  The snapshot,
the `try`/`finally` around `calibration_scan`, the grouped restoration
moves and the final `motor.configure` commit (lines 50-72) are
consequently unreachable. -/
def calibrate_motor (env : CalEnv) : List Effect × Except PyErr Unit :=
  let tr := [Effect.readConfigCmd]
  if env.hasCalib && env.hasMotors then
    if env.confirmOverwrite then
      if strToLower (promptResponse env) ≠ "y" then
        -- "Calibration cancelled."
        (tr, Except.ok ())
      else
        (tr, Except.error (PyErr.nameError "return_to_start"))
    else
      (tr, Except.error (PyErr.nameError "return_to_start"))
  else
    (tr, Except.error (PyErr.nameError "return_to_start"))

/-! ### The per-channel scaling walk `detector_scaling_walk`

`np.argmax` over the absolute deviations is embedded as `argmaxFrom`:
the least index of the column entry farthest from the baseline (numpy
returns the first occurrence of the maximum on ties). -/

/-- Numpy's `abs`, embedded executably on the rationals. -/
def absQ (q : ℚ) : ℚ := if q < 0 then -q else q

/-- First index of the value in the list farthest (by absolute
difference) from `x`; `0` on the empty list (numpy instead raises there,
which the caller checks first). -/
def argmaxFrom (x : ℚ) : List ℚ → Nat
  | [] => 0
  | [_] => 0
  | v :: w :: rest =>
    let j := argmaxFrom x (w :: rest)
    if absQ (v - x) < absQ ((w :: rest).getD j 0 - x) then j + 1 else 0

/-- Environment of one `detector_scaling_walk` run: for the channel at
loop index `i` it supplies the averaged readings before the walk
(`readPre i field`), the outcome of the `walk_to_pixel` primitive
(`none` when it returns, `some e` when it raises `e`), and the averaged
readings after the walk (`readPost i field`). -/
structure WalkEnv where
  readPre : Nat → String → ℚ
  walkRes : Nat → Option PyErr
  readPost : Nat → String → ℚ

/-- Whether the loop's `except` clauses catch this exception
(`except RuntimeError` and `except LimitError`). -/
def caught : PyErr → Bool
  | PyErr.runtimeError => true
  | PyErr.limitError => true
  | _ => false

/-- Embedding of the channel loop of `detector_scaling_walk`
(calibration.py lines 353-407).  `i` is the loop index, the list holds
the remaining `(detector field, calib field, calib motor)` triples and
the two accumulators are the `scaling` and `start_positions` lists.

Per channel: one averaged read fixes `(motor_start, dfld_start)`; numpy
`argmax` of `|df_scan[dfld] - dfld_start|` (raising `ValueError` on an
empty column) picks the walk target; `walk_to_pixel` runs, a raised
`RuntimeError`/`LimitError` being caught with a warning while any other
exception propagates; a second averaged read fixes
`(motor_end, dfld_end)`; the scale
`(motor_end - motor_start) / (dfld_end - dfld_start)` is appended
(CPython float division raising `ZeroDivisionError` when
`dfld_end = dfld_start`) together with the start position, and the loop
continues. -/
def walkChannels (df : Df) (env : WalkEnv) :
    Nat → List (String × String × String) → List ℚ → List ℚ →
    List Effect × Except PyErr (List ℚ × List ℚ)
  | _, [], scaling, starts => ([], Except.ok (scaling, starts))
  | i, (dfld, cfld, cm) :: rest, scaling, starts =>
    let motorStart := env.readPre i cfld
    let dfldStart := env.readPre i dfld
    let col := dfGet df dfld
    if col = [] then
      ([Effect.measureCmd], Except.error (PyErr.valueError "attempt to get argmax of an empty sequence"))
    else
      let target := col.getD (argmaxFrom dfldStart col) 0
      let pre := [Effect.measureCmd, Effect.walkCmd cm target]
      let abort : Option PyErr :=
        match env.walkRes i with
        | some e => if caught e then none else some e
        | none => none
      match abort with
      | some e => (pre, Except.error e)
      | none =>
        let motorEnd := env.readPost i cfld
        let dfldEnd := env.readPost i dfld
        if dfldEnd = dfldStart then
          (pre ++ [Effect.measureCmd], Except.error PyErr.zeroDivisionError)
        else
          let next := walkChannels df env (i + 1) rest
            (scaling ++ [(motorEnd - motorStart) / (dfldEnd - dfldStart)])
            (starts ++ [motorStart])
          (pre ++ [Effect.measureCmd] ++ next.1, next.2)

/-- Embedding of `detector_scaling_walk` (calibration.py lines 274-410).

The detector fields are rediscovered as the scan-table columns whose
name contains the detector's name, the calibration fields as the
columns ending in `"_pre"` with that suffix stripped; a count mismatch
raises `ValueError`, otherwise the channel loop runs over
`zip(detector_fields, calib_fields, calib_motors)` (positional pairing,
truncated to the shortest list). -/
def detector_scaling_walk (df : Df) (detName : String)
    (calibMotors : List String) (env : WalkEnv) :
    List Effect × Except PyErr (List ℚ × List ℚ) :=
  let detectorFields := (dfCols df).filter (fun c => strContains c detName)
  let calibFields := ((dfCols df).filter (fun c => strEndsWith c "_pre")).map dropLast4
  if detectorFields.length ≠ calibFields.length then
    ([], Except.error (PyErr.valueError "Must have same number of calibration fields as detector fields"))
  else
    walkChannels df env 0 (List.zip detectorFields (List.zip calibFields calibMotors)) [] []

/-! ### The scan stage `calibration_centroid_scan` and `calibration_scan` -/

/-- Outcome the external scan engine delivers for the single centroid
scan of a run. -/
structure ScanEnv where
  scanResult : Except PyErr Df

/-- Python truthiness resolution `calib_fields or [m.name for m in
calib_motors]`: `None` and the empty list are falsy and are replaced by
the motors' names. -/
def resolveFields (cfOpt : Option (List String)) (motors : List String) : List String :=
  match cfOpt with
  | none => motors
  | some [] => motors
  | some cf => cf

/-- Modelled from the spec: `centroid_scan` lives in
`src/hxrsnd/plans/scans.py`, which is not part of the provided sources.
Following §4.1, the ScanRunner delegates the sweep to the external
execution engine (one scan request moving the primary motor through the
range) and returns the collected table; the environment supplies that
table or the error the engine raised. -/
def centroid_scan (env : ScanEnv) : List Effect × Except PyErr Df :=
  ([Effect.scanCmd], env.scanResult)

/-- Renaming step of `calibration_centroid_scan` (line 271): every
column whose name is one of the calibration fields gains the `"_pre"`
marker. -/
def renamePre (calibFields : List String) (df : Df) : Df :=
  df.map (fun p => if calibFields.contains p.1 then (p.1 ++ "_pre", p.2) else p)

/-- Embedding of `calibration_centroid_scan` (calibration.py lines
205-272): resolve the calibration fields, validate one field per motor,
run the centroid scan and mark the calibration columns with `"_pre"`. -/
def calibration_centroid_scan (calibMotors : List String)
    (calibFields : Option (List String)) (env : ScanEnv) :
    List Effect × Except PyErr Df :=
  let cf := resolveFields calibFields calibMotors
  if calibMotors.length ≠ cf.length then
    ([], Except.error (PyErr.valueError "Must one calibration field for every calibration motor"))
  else
    match centroid_scan env with
    | (tr, Except.error e) => (tr, Except.error e)
    | (tr, Except.ok df) => (tr, Except.ok (renamePre cf df))

/-- Embedding of `calibration_scan` (calibration.py lines 74-203).

After the savgol window check (`steps <= window_length`) and the two
count checks, the centroid scan runs.  The subsequent call (line 183)

  `detector_scaling_walk(df_scan, detector, motor, calib_motors,
                         first_step=first_step, ...)`

binds `motor` to the callee's `calib_motors` parameter and
`calib_motors` to its `first_step` parameter positionally while also
passing `first_step` by keyword, so CPython raises
`TypeError: got multiple values for argument 'first_step'` at the call
site; the walk, the table build and the normal return (lines 183-203)
are unreachable. -/
def calibration_scan (detectorFields : List String)
    (calibMotors : List String) (calibFields : Option (List String))
    (steps windowLength : Nat) (env : ScanEnv) :
    List Effect × Except PyErr (Df × Df × List ℚ × List ℚ) :=
  let num := detectorFields.length
  let cf := resolveFields calibFields calibMotors
  if steps ≤ windowLength then
    ([], Except.error (PyErr.valueError "Cannot apply savgol filter: steps must be greater than the window size"))
  else if calibMotors.length ≠ num then
    ([], Except.error (PyErr.valueError "Must have same number of calibration motors as detector fields"))
  else if cf.length ≠ num then
    ([], Except.error (PyErr.valueError "Must have same number of calibration fields as detector fields"))
  else
    match calibration_centroid_scan calibMotors (some cf) env with
    | (tr, Except.error e) => (tr, Except.error e)
    | (tr, Except.ok _dfScan) =>
      (tr, Except.error (PyErr.typeError "detector_scaling_walk() got multiple values for argument 'first_step'"))

/-! ### The table builder `build_calibration_df` -/

/-- Vectorised absolute-correction column
`start - (df_scan[dfld] - df_scan[dfld].iloc[0]) * scale`. -/
def corrAbsVals (start scale d0 : ℚ) (dcol : List ℚ) : List ℚ :=
  dcol.map (fun v => start - (v - d0) * scale)

/-- Embedding of the channel loop of `build_calibration_df`
(calibration.py lines 457-464): for each
`(scale, start, calib field, detector field)` quadruple, assign the
absolute-correction column and then the relative-correction column
(absolute minus the channel's `"_pre"` column) into the accumulating
corrections frame.  `.iloc[0]` on an empty detector column raises
`IndexError`. -/
def buildCorrections (df : Df) :
    List (ℚ × ℚ × String × String) → Df → Except PyErr Df
  | [], acc => Except.ok acc
  | (scale, start, cfld, dfld) :: rest, acc =>
    match dfGet df dfld with
    | [] => Except.error PyErr.indexError
    | d0 :: dtail =>
      let absv := corrAbsVals start scale d0 (d0 :: dtail)
      let relv := List.zipWith (fun a b => a - b) absv (dfGet df (cfld ++ "_pre"))
      buildCorrections df rest
        (setCol (setCol acc (cfld ++ "_post_abs") absv) (cfld ++ "_post_rel") relv)

/-- Embedding of `build_calibration_df` (calibration.py lines 412-469).

The detector, calibration and motor fields are rediscovered from the
scan table's column names exactly as in `detector_scaling_walk`; a
count mismatch raises `ValueError`; otherwise the corrections are built
over `zip(scaling, start_positions, calib_fields, detector_fields)` and
concatenated after the scan table's motor columns. -/
def build_calibration_df (df : Df) (scaling startPositions : List ℚ)
    (detName : String) : Except PyErr Df :=
  let detectorFields := (dfCols df).filter (fun c => strContains c detName)
  let calibFields := ((dfCols df).filter (fun c => strEndsWith c "_pre")).map dropLast4
  let motorFields := (dfCols df).filter
    (fun c => !(detectorFields.contains c) && !(strEndsWith c "_pre"))
  if detectorFields.length ≠ calibFields.length then
    Except.error (PyErr.valueError "Must have same number of calibration fields as detector fields")
  else
    match buildCorrections df
        (List.zip scaling (List.zip startPositions (List.zip calibFields detectorFields))) [] with
    | Except.error e => Except.error e
    | Except.ok corr => Except.ok (selectCols df motorFields ++ corr)

/-! ### Concrete tables, environments and specification-side
constructions used by the claim instances -/

/-- Scan table of the §8 scenario: an 11-step sweep whose detector
column `det_x` reads `0..10` and whose single calibration channel
`cm1` was recorded (pre-walk) at `0`. -/
def scanDfC2 : Df :=
  [("delay", [0, 1, 2, 3, 4, 5, 6, 7, 8, 9, 10]),
   ("det_x", [0, 1, 2, 3, 4, 5, 6, 7, 8, 9, 10]),
   ("cm1_pre", [0, 0, 0, 0, 0, 0, 0, 0, 0, 0, 0])]

/-- Environment of the §8 scenario: the baseline read of `det_x` is 5,
the walk returns normally and the post-walk read is `det_x = 0`,
`cm1 = 3`. -/
def envC2 : WalkEnv where
  readPre := fun _ f => if f = "det_x" then 5 else 0
  walkRes := fun _ => none
  readPost := fun _ f => if f = "det_x" then 0 else 3

/-- Environment of a degenerate-signal run: the walk raises a (caught)
`LimitError` and nothing moves, so the post-walk detector reading
equals the pre-walk one. -/
def envC3 : WalkEnv where
  readPre := fun _ f => if f = "det_x" then 5 else 2
  walkRes := fun _ => some PyErr.limitError
  readPost := fun _ f => if f = "det_x" then 5 else 2

/-- Witness scan table for the C5 instantiation. -/
def dfC5 : Df := [("det_x", [0, 1]), ("cm1_pre", [0, 0])]

/-- Witness environment for C5: the walk always raises `RuntimeError`;
the readings still change across the walk. -/
def envC5 : WalkEnv where
  readPre := fun _ f => if f = "det_x" then 5 else 2
  walkRes := fun _ => some PyErr.runtimeError
  readPost := fun _ f => if f = "det_x" then 3 else 7

/-- Effects of one successful channel iteration: baseline read, walk
request on the channel's motor targeting the first farthest row of the
channel's detector column, post-walk read. -/
def channelTrace (df : Df) (env : WalkEnv) (i : Nat)
    (ch : String × String × String) : List Effect :=
  [Effect.measureCmd,
    Effect.walkCmd ch.2.2
      ((dfGet df ch.1).getD (argmaxFrom (env.readPre i ch.1) (dfGet df ch.1)) 0),
    Effect.measureCmd]

/-- Trace of a fully successful channel loop. -/
def okTrace (df : Df) (env : WalkEnv) :
    Nat → List (String × String × String) → List Effect
  | _, [] => []
  | i, ch :: rest => channelTrace df env i ch ++ okTrace df env (i + 1) rest

/-- Witness scan table for C10: no legitimately named calibration
channel at all — `junk_det_col` merely contains the detector's name and
`foo_pre` merely ends in the marker suffix. -/
def dfC10 : Df := [("junk_det_col", [0, 1]), ("foo_pre", [0, 0])]

/-- Witness environment for C10: distinct pre/post readings, walk
returns normally. -/
def envC10 : WalkEnv where
  readPre := fun _ f => if f = "junk_det_col" then 5 else 2
  walkRes := fun _ => none
  readPost := fun _ f => if f = "junk_det_col" then 3 else 7

/-- The two correction columns one channel contributes, with the values
the source's formulas prescribe. -/
def chanCols (df : Df) (ch : ℚ × ℚ × String × String) : Df :=
  [(ch.2.2.1 ++ "_post_abs",
      corrAbsVals ch.2.1 ch.1 ((dfGet df ch.2.2.2).getD 0 0) (dfGet df ch.2.2.2)),
   (ch.2.2.1 ++ "_post_rel",
      List.zipWith (fun a b => a - b)
        (corrAbsVals ch.2.1 ch.1 ((dfGet df ch.2.2.2).getD 0 0) (dfGet df ch.2.2.2))
        (dfGet df (ch.2.2.1 ++ "_pre")))]

/-- The column names the channel loop generates, in assignment order. -/
def genNames : List (ℚ × ℚ × String × String) → List String
  | [] => []
  | ch :: rest => (ch.2.2.1 ++ "_post_abs") :: (ch.2.2.1 ++ "_post_rel") :: genNames rest

/-- The corrections frame as a pure concatenation of per-channel
column pairs. -/
def corrSpec (df : Df) : List (ℚ × ℚ × String × String) → Df
  | [] => []
  | ch :: rest => chanCols df ch ++ corrSpec df rest

/-- Follows the specification text (§3, §4.3): the calibration table is
the scan table's primary-motor columns together with, for each channel
in order, an absolute-correction column
`start − (d[i] − d[0]) * scale` and a relative-correction column
`absolute − pre-correction`, as a pure function of the scan table, the
scales, the start positions and the detector name. -/
def buildCalibrationSpec (df : Df) (scaling starts : List ℚ)
    (detName : String) : Df :=
  selectCols df ((dfCols df).filter
      (fun c => !(((dfCols df).filter (fun c => strContains c detName)).contains c) &&
        !(strEndsWith c "_pre"))) ++
    corrSpec df (List.zip scaling (List.zip starts
      (List.zip (((dfCols df).filter (fun c => strEndsWith c "_pre")).map dropLast4)
        ((dfCols df).filter (fun c => strContains c detName)))))

/-- Witness scan table for C9 and C7: one detector column `det_x`, one
channel `cm1`, one extra motor column `delay`. -/
def dfC9 : Df := [("delay", [0, 1]), ("det_x", [4, 6]), ("cm1_pre", [5, 9])]

/-! ## Claims about the orchestrator -/

/-- C1.  The claimed restoration guarantee of `calibrate_motor` — once
the calibration scan has begun, all motors are restored to their
snapshotted positions as one jointly-awaited batch before any outcome
is reported — is unreachable in the code: every run emits exactly the
configuration read and then either returns on a declined confirmation
or raises `NameError` on the undefined name `return_to_start` (line
48), so no scan request, no restoration move and no group wait is ever
issued. -/
theorem calibrate_motor_no_scan_no_restoration :
    ∀ env : CalEnv,
      (calibrate_motor env).1 = [Effect.readConfigCmd] ∧
      ((calibrate_motor env).2 = Except.ok () ∨
        (calibrate_motor env).2 = Except.error (PyErr.nameError "return_to_start")) := by
  intro env
  unfold calibrate_motor
  split_ifs <;> simp

/-- C8.  With a prior calibration loaded and `confirm_overwrite`
enabled, any prompt response whose lowercasing differs from `"y"`
(including the substituted `"n"` when the prompt raises) makes
`calibrate_motor` return immediately: the trace holds only the
configuration read — no scan, walk, build, commit, move or wait — and
the plan ends normally. -/
theorem calibrate_motor_decline_no_side_effects
    (env : CalEnv) (h1 : env.hasCalib = true) (h2 : env.hasMotors = true)
    (h3 : env.confirmOverwrite = true)
    (h4 : strToLower (promptResponse env) ≠ "y") :
    calibrate_motor env = ([Effect.readConfigCmd], Except.ok ()) := by
  unfold calibrate_motor
  rw [h1, h2, h3]
  simp [h4]

/-- Witness for C8: a run with a loaded calibration whose prompt
answers `"n"` ends with only the configuration read. -/
theorem calibrate_motor_decline_no_side_effects_witness :
    (CalEnv.mk true true true (some "n")).hasCalib = true ∧
    (CalEnv.mk true true true (some "n")).hasMotors = true ∧
    (CalEnv.mk true true true (some "n")).confirmOverwrite = true ∧
    strToLower (promptResponse (CalEnv.mk true true true (some "n"))) ≠ "y" ∧
    calibrate_motor (CalEnv.mk true true true (some "n")) =
      ([Effect.readConfigCmd], Except.ok ()) :=
  ⟨rfl, rfl, rfl, by decide,
    calibrate_motor_decline_no_side_effects _ rfl rfl rfl (by decide)⟩

/-- C6.  The commit `motor.configure(...)` is unreachable: no trace of
`calibrate_motor` ever contains the configure message (the `NameError`
on `return_to_start` precedes the pipeline), and independently the
pipeline `calibration_scan` can never complete without raising — every
run ends in an error (a validation `ValueError`, the scan engine's own
error, or the `TypeError` from the misaligned `detector_scaling_walk`
call at line 183) — so the "commit iff pipeline succeeded" contract
degenerates to commit never happening. -/
theorem calibrate_motor_commit_unreachable :
    (∀ env : CalEnv, Effect.configureCmd ∉ (calibrate_motor env).1) ∧
    (∀ (dfs cms : List String) (cfs : Option (List String))
        (steps wl : Nat) (senv : ScanEnv),
        ∃ e, (calibration_scan dfs cms cfs steps wl senv).2 = Except.error e) := by
  constructor
  · intro env
    unfold calibrate_motor
    split_ifs <;> simp
  · intro dfs cms cfs steps wl senv
    unfold calibration_scan
    dsimp only
    split_ifs with h1 h2 h3
    · exact ⟨_, rfl⟩
    · exact ⟨_, rfl⟩
    · exact ⟨_, rfl⟩
    · rcases h : calibration_centroid_scan cms (some (resolveFields cfs cms)) senv
        with ⟨tr, res⟩
      cases res
      · exact ⟨_, rfl⟩
      · exact ⟨_, rfl⟩

/-! ## Claims about the scan stage -/

/-- C4 counterexample.  An explicitly passed `calib_fields = []` has
length 0 ≠ 2 = `len(detector_fields)`, yet `calibration_scan` does not
raise the claimed configuration `ValueError` before touching hardware:
`calib_fields or [m.name ...]` treats the empty list as "not provided",
substitutes the motor names, the checks pass and the scan request is
issued. -/
theorem calibration_scan_empty_fields_touches_hardware :
    (([] : List String)).length ≠ (["d1", "d2"] : List String).length ∧
    Effect.scanCmd ∈ (calibration_scan ["d1", "d2"] ["m1", "m2"] (some [])
      10 9 (ScanEnv.mk (Except.ok []))).1 := by
  decide

/-- C4 amended.  Whenever the motor count differs from the detector
field count, or the *resolved* calibration field list (the passed one
unless it is `None` or empty, in which case the motors' names are
substituted) differs in length from the detector field count,
`calibration_scan` raises a `ValueError` with an empty effect trace —
zero hardware interaction. -/
theorem calibration_scan_mismatch_no_hardware
    (dfs cms : List String) (cfs : Option (List String))
    (steps wl : Nat) (senv : ScanEnv)
    (h : cms.length ≠ dfs.length ∨ (resolveFields cfs cms).length ≠ dfs.length) :
    (calibration_scan dfs cms cfs steps wl senv).1 = [] ∧
    ∃ msg, (calibration_scan dfs cms cfs steps wl senv).2 =
      Except.error (PyErr.valueError msg) := by
  unfold calibration_scan
  dsimp only
  split_ifs with h1 h2 h3
  · exact ⟨rfl, _, rfl⟩
  · exact ⟨rfl, _, rfl⟩
  · exact ⟨rfl, _, rfl⟩
  · exfalso
    rcases h with h | h
    · exact h2 h
    · exact h3 h

/-- Witness for the amended C4: two motors against one detector field
produce the validation error with an empty trace. -/
theorem calibration_scan_mismatch_no_hardware_witness :
    ((["m1", "m2"] : List String).length ≠ (["d1"] : List String).length ∨
      (resolveFields none ["m1", "m2"]).length ≠ (["d1"] : List String).length) ∧
    ((calibration_scan ["d1"] ["m1", "m2"] none 10 9 (ScanEnv.mk (Except.ok []))).1 = [] ∧
      ∃ msg, (calibration_scan ["d1"] ["m1", "m2"] none 10 9 (ScanEnv.mk (Except.ok []))).2 =
        Except.error (PyErr.valueError msg)) :=
  ⟨by decide, calibration_scan_mismatch_no_hardware _ _ _ _ _ _ (by decide)⟩

/-! ## Claims about the scaling walk -/

/-- The executable absolute value agrees with the mathematical one. -/
theorem absQ_eq_abs (q : ℚ) : absQ q = |q| := by
  unfold absQ
  split_ifs with h
  · exact (abs_of_neg h).symm
  · exact (abs_of_nonneg (not_lt.mp h)).symm

/-- The argmax index stays inside the list. -/
theorem argmaxFrom_lt_length (x : ℚ) :
    ∀ l : List ℚ, l ≠ [] → argmaxFrom x l < l.length
  | [], h => absurd rfl h
  | [_], _ => by simp [argmaxFrom]
  | _ :: w :: rest, _ => by
    have ih := argmaxFrom_lt_length x (w :: rest) (by simp)
    unfold argmaxFrom
    dsimp only
    split_ifs
    · exact Nat.succ_lt_succ ih
    · simp

/-- The argmax index attains the maximal absolute deviation from `x`. -/
theorem argmaxFrom_max (x : ℚ) :
    ∀ l : List ℚ, ∀ j < l.length,
      |l.getD j 0 - x| ≤ |l.getD (argmaxFrom x l) 0 - x|
  | [], j, hj => absurd hj (by simp)
  | [v], j, hj => by
    have : j = 0 := Nat.lt_one_iff.mp (by simpa using hj)
    subst this
    simp [argmaxFrom]
  | v :: w :: rest, j, hj => by
    have ih := argmaxFrom_max x (w :: rest)
    unfold argmaxFrom
    dsimp only
    simp only [absQ_eq_abs]
    split_ifs with hlt
    · cases j with
      | zero => simpa using le_of_lt hlt
      | succ j =>
        simpa using ih j (by simpa using Nat.lt_of_succ_lt_succ hj)
    · cases j with
      | zero => simp
      | succ j =>
        have h1 := ih j (by simpa using Nat.lt_of_succ_lt_succ hj)
        have h2 := le_of_not_lt hlt
        simpa using le_trans h1 h2

/-- Every index strictly before the argmax index has a strictly smaller
absolute deviation: `argmaxFrom` is the first occurrence of the
maximum, matching numpy's tie-breaking. -/
theorem argmaxFrom_first (x : ℚ) :
    ∀ l : List ℚ, ∀ j < argmaxFrom x l,
      |l.getD j 0 - x| < |l.getD (argmaxFrom x l) 0 - x|
  | [], j, hj => absurd hj (by simp [argmaxFrom])
  | [v], j, hj => absurd hj (by simp [argmaxFrom])
  | v :: w :: rest, j, hj => by
    have ihf := argmaxFrom_first x (w :: rest)
    unfold argmaxFrom at hj ⊢
    dsimp only at hj ⊢
    simp only [absQ_eq_abs] at hj ⊢
    split_ifs at hj ⊢ with hlt
    · cases j with
      | zero => simpa using hlt
      | succ j =>
        simpa using ihf j (by simpa using Nat.lt_of_succ_lt_succ hj)
    · exact absurd hj (by simp)

/-- The first two effects of a channel iteration are the baseline
averaged read and the walk request whose target is the column value at
the first farthest row. -/
theorem walkChannels_take2 (df : Df) (env : WalkEnv) (i : Nat)
    (dfld cfld cm : String) (rest : List (String × String × String))
    (sc st : List ℚ) (hcol : dfGet df dfld ≠ []) :
    (walkChannels df env i ((dfld, cfld, cm) :: rest) sc st).1.take 2 =
      [Effect.measureCmd,
        Effect.walkCmd cm
          ((dfGet df dfld).getD (argmaxFrom (env.readPre i dfld) (dfGet df dfld)) 0)] := by
  unfold walkChannels
  rw [if_neg hcol]
  cases h : env.walkRes i with
  | none =>
    dsimp only
    split_ifs <;> simp
  | some e =>
    dsimp only
    split_ifs <;> simp

/-- C2 counterexample.  In the §8 scenario (detector values `0..10`,
baseline 5, rows 0 and 10 both at distance 5) numpy's `argmax` returns
the FIRST maximising row: the farthest-row search yields row index 0,
not the row index 10 the claim names, and the walk request the embedded
`detector_scaling_walk` issues targets the value at row 0 — which
differs from the value at row 10. -/
theorem walk_target_tie_breaks_to_first_row :
    argmaxFrom 5 [0, 1, 2, 3, 4, 5, 6, 7, 8, 9, 10] = 0 ∧ (0 : Nat) ≠ 10 ∧
    (detector_scaling_walk scanDfC2 "det" ["M1"] envC2).1.take 2 =
      [Effect.measureCmd,
        Effect.walkCmd "M1" (([0, 1, 2, 3, 4, 5, 6, 7, 8, 9, 10] : List ℚ).getD 0 0)] ∧
    ([0, 1, 2, 3, 4, 5, 6, 7, 8, 9, 10] : List ℚ).getD 0 0 ≠
      ([0, 1, 2, 3, 4, 5, 6, 7, 8, 9, 10] : List ℚ).getD 10 0 := by
  have hidx : argmaxFrom 5 [0, 1, 2, 3, 4, 5, 6, 7, 8, 9, 10] = 0 := by
    norm_num [argmaxFrom, absQ]
  have hdet : List.filter (fun c => strContains c "det") (dfCols scanDfC2) = ["det_x"] := by
    decide
  have hcal : List.map dropLast4
      (List.filter (fun c => strEndsWith c "_pre") (dfCols scanDfC2)) = ["cm1"] := by
    decide
  have hcol : dfGet scanDfC2 "det_x" = [0, 1, 2, 3, 4, 5, 6, 7, 8, 9, 10] := by
    decide
  have hre : envC2.readPre 0 "det_x" = 5 := rfl
  refine ⟨hidx, by decide, ?_, by decide⟩
  unfold detector_scaling_walk
  dsimp only
  rw [hdet, hcal, if_neg (by decide)]
  have h2 := walkChannels_take2 scanDfC2 envC2 0 "det_x" "cm1" "M1" [] [] []
    (by rw [hcol]; decide)
  rw [hre, hcol, hidx] at h2
  exact h2

/-- C2 amended.  The walk target of the first channel is the scan-table
value at the row whose recorded detector value is farthest (by absolute
difference) from the baseline `d_start`, and the tie-break is
deterministic: `argmax` selects the FIRST such row (in the §8 scenario,
row index 0). -/
theorem walk_target_is_first_farthest_row
    (df : Df) (detName : String) (motors : List String) (env : WalkEnv)
    (dfld cfld cm : String) (rest : List (String × String × String))
    (x : ℚ) (col : List ℚ) (k : Nat)
    (hzip : List.zip ((dfCols df).filter (fun c => strContains c detName))
        (List.zip (((dfCols df).filter (fun c => strEndsWith c "_pre")).map dropLast4)
          motors) = (dfld, cfld, cm) :: rest)
    (hlen : ((dfCols df).filter (fun c => strContains c detName)).length =
      (((dfCols df).filter (fun c => strEndsWith c "_pre")).map dropLast4).length)
    (hx : x = env.readPre 0 dfld) (hcolEq : col = dfGet df dfld)
    (hcol : col ≠ []) (hk : k = argmaxFrom x col) :
    (detector_scaling_walk df detName motors env).1.take 2 =
      [Effect.measureCmd, Effect.walkCmd cm (col.getD k 0)] ∧
    k < col.length ∧
    (∀ j < col.length, |col.getD j 0 - x| ≤ |col.getD k 0 - x|) ∧
    (∀ j < k, |col.getD j 0 - x| < |col.getD k 0 - x|) := by
  subst hx hcolEq hk
  refine ⟨?_, argmaxFrom_lt_length _ _ hcol, argmaxFrom_max _ _, argmaxFrom_first _ _⟩
  unfold detector_scaling_walk
  dsimp only
  rw [if_neg (by simp [hlen]), hzip]
  exact walkChannels_take2 df env 0 dfld cfld cm rest [] [] hcol

/-- Witness for the amended C2: the §8 scenario instantiation — the
walk request targets the value at row 0. -/
theorem walk_target_is_first_farthest_row_witness :
    (List.zip ((dfCols scanDfC2).filter (fun c => strContains c "det"))
        (List.zip (((dfCols scanDfC2).filter (fun c => strEndsWith c "_pre")).map dropLast4)
          ["M1"]) = ("det_x", "cm1", "M1") :: []) ∧
    (((dfCols scanDfC2).filter (fun c => strContains c "det")).length =
      (((dfCols scanDfC2).filter (fun c => strEndsWith c "_pre")).map dropLast4).length) ∧
    ((5 : ℚ) = envC2.readPre 0 "det_x") ∧
    ([0, 1, 2, 3, 4, 5, 6, 7, 8, 9, 10] : List ℚ) = dfGet scanDfC2 "det_x" ∧
    (([0, 1, 2, 3, 4, 5, 6, 7, 8, 9, 10] : List ℚ) ≠ []) ∧
    (0 = argmaxFrom 5 [0, 1, 2, 3, 4, 5, 6, 7, 8, 9, 10]) ∧
    ((detector_scaling_walk scanDfC2 "det" ["M1"] envC2).1.take 2 =
        [Effect.measureCmd,
          Effect.walkCmd "M1" (([0, 1, 2, 3, 4, 5, 6, 7, 8, 9, 10] : List ℚ).getD 0 0)] ∧
      (0 : Nat) < ([0, 1, 2, 3, 4, 5, 6, 7, 8, 9, 10] : List ℚ).length ∧
      (∀ j < ([0, 1, 2, 3, 4, 5, 6, 7, 8, 9, 10] : List ℚ).length,
        |([0, 1, 2, 3, 4, 5, 6, 7, 8, 9, 10] : List ℚ).getD j 0 - 5| ≤
          |([0, 1, 2, 3, 4, 5, 6, 7, 8, 9, 10] : List ℚ).getD 0 0 - 5|) ∧
      (∀ j < 0, |([0, 1, 2, 3, 4, 5, 6, 7, 8, 9, 10] : List ℚ).getD j 0 - 5| <
          |([0, 1, 2, 3, 4, 5, 6, 7, 8, 9, 10] : List ℚ).getD 0 0 - 5|)) :=
  ⟨by decide, by decide, by decide, by decide, by decide,
    by norm_num [argmaxFrom, absQ],
    walk_target_is_first_farthest_row scanDfC2 "det" ["M1"] envC2
      "det_x" "cm1" "M1" [] 5 [0, 1, 2, 3, 4, 5, 6, 7, 8, 9, 10] 0
      (by decide) (by decide) (by decide) (by decide) (by decide)
      (by norm_num [argmaxFrom, absQ])⟩

/-- C3.  When the detector reading after the walk equals the reading
before it, the unguarded scale computation at line 405 raises a bare
`ZeroDivisionError` (CPython float semantics) — there is no dedicated
calibration error, the channel's scale is never produced, the remaining
channels are abandoned, and no restoration move has been issued at the
point the error escapes `detector_scaling_walk`. -/
theorem degenerate_signal_bare_zero_division :
    (detector_scaling_walk scanDfC2 "det" ["M1"] envC3).2 =
      Except.error PyErr.zeroDivisionError ∧
    (detector_scaling_walk scanDfC2 "det" ["M1"] envC3).1 =
      [Effect.measureCmd,
        Effect.walkCmd "M1"
          ((dfGet scanDfC2 "det_x").getD
            (argmaxFrom (envC3.readPre 0 "det_x") (dfGet scanDfC2 "det_x")) 0),
        Effect.measureCmd] ∧
    (∀ m p g, Effect.moveCmd m p g ∉ (detector_scaling_walk scanDfC2 "det" ["M1"] envC3).1) := by
  refine ⟨rfl, rfl, ?_⟩
  intro m p g hmem
  rw [show (detector_scaling_walk scanDfC2 "det" ["M1"] envC3).1 =
      [Effect.measureCmd,
        Effect.walkCmd "M1"
          ((dfGet scanDfC2 "det_x").getD
            (argmaxFrom (envC3.readPre 0 "det_x") (dfGet scanDfC2 "det_x")) 0),
        Effect.measureCmd] from rfl] at hmem
  simp at hmem

/-- C5.  A channel whose `walk_to_pixel` raises `RuntimeError` or
`LimitError` is recovered locally: the exception is caught, the channel
proceeds to the post-walk averaged read, its scale is computed from the
current (post-walk) readings, its start position is recorded, and the
loop continues with the remaining channels — the failure aborts
nothing. -/
theorem walk_failure_recovered_locally
    (df : Df) (env : WalkEnv) (i : Nat) (dfld cfld cm : String)
    (rest : List (String × String × String)) (scaling starts : List ℚ)
    (hw : env.walkRes i = some PyErr.runtimeError ∨
      env.walkRes i = some PyErr.limitError)
    (hcol : dfGet df dfld ≠ [])
    (hnd : env.readPost i dfld ≠ env.readPre i dfld) :
    walkChannels df env i ((dfld, cfld, cm) :: rest) scaling starts =
      ([Effect.measureCmd,
          Effect.walkCmd cm
            ((dfGet df dfld).getD (argmaxFrom (env.readPre i dfld) (dfGet df dfld)) 0),
          Effect.measureCmd]
        ++ (walkChannels df env (i + 1) rest
            (scaling ++ [(env.readPost i cfld - env.readPre i cfld) /
              (env.readPost i dfld - env.readPre i dfld)])
            (starts ++ [env.readPre i cfld])).1,
       (walkChannels df env (i + 1) rest
          (scaling ++ [(env.readPost i cfld - env.readPre i cfld) /
            (env.readPost i dfld - env.readPre i dfld)])
          (starts ++ [env.readPre i cfld])).2) := by
  conv_lhs => rw [walkChannels]
  rw [if_neg hcol]
  rcases hw with hw | hw <;>
    rw [hw] <;> dsimp only [caught] <;> rw [if_neg hnd] <;> simp

/-- Witness for C5: with a failing walk and changed readings the
channel still contributes its scale and start position and the loop
moves on to the (empty) remainder. -/
theorem walk_failure_recovered_locally_witness :
    (envC5.walkRes 0 = some PyErr.runtimeError ∨
      envC5.walkRes 0 = some PyErr.limitError) ∧
    dfGet dfC5 "det_x" ≠ [] ∧
    envC5.readPost 0 "det_x" ≠ envC5.readPre 0 "det_x" ∧
    walkChannels dfC5 envC5 0 [("det_x", "cm1", "M1")] [] [] =
      ([Effect.measureCmd,
          Effect.walkCmd "M1"
            ((dfGet dfC5 "det_x").getD
              (argmaxFrom (envC5.readPre 0 "det_x") (dfGet dfC5 "det_x")) 0),
          Effect.measureCmd]
        ++ (walkChannels dfC5 envC5 1 []
            ([] ++ [(envC5.readPost 0 "cm1" - envC5.readPre 0 "cm1") /
              (envC5.readPost 0 "det_x" - envC5.readPre 0 "det_x")])
            ([] ++ [envC5.readPre 0 "cm1"])).1,
       (walkChannels dfC5 envC5 1 []
          ([] ++ [(envC5.readPost 0 "cm1" - envC5.readPre 0 "cm1") /
            (envC5.readPost 0 "det_x" - envC5.readPre 0 "det_x")])
          ([] ++ [envC5.readPre 0 "cm1"])).2) :=
  ⟨Or.inl rfl, by decide, by decide,
    walk_failure_recovered_locally dfC5 envC5 0 "det_x" "cm1" "M1" [] [] []
      (Or.inl rfl) (by decide) (by decide)⟩

/-- A successful channel loop emits exactly one `channelTrace` per
zipped channel, in order, and appends exactly one scale and one start
position per channel. -/
theorem walkChannels_ok (df : Df) (env : WalkEnv) :
    ∀ (chans : List (String × String × String)) (i : Nat)
      (scaling starts s1 s2 : List ℚ),
      (walkChannels df env i chans scaling starts).2 = Except.ok (s1, s2) →
      (walkChannels df env i chans scaling starts).1 = okTrace df env i chans ∧
      s1.length = scaling.length + chans.length ∧
      s2.length = starts.length + chans.length := by
  intro chans
  induction chans with
  | nil =>
    intro i scaling starts s1 s2 hok
    rw [walkChannels] at hok ⊢
    dsimp only at hok
    obtain ⟨h1, h2⟩ := Prod.mk.injEq .. ▸ (Except.ok.injEq .. ▸ hok)
    subst h1
    subst h2
    simp [okTrace]
  | cons ch rest ih =>
    rcases ch with ⟨dfld, cfld, cm⟩
    intro i scaling starts s1 s2 hok
    rw [walkChannels] at hok ⊢
    by_cases hcol : dfGet df dfld = []
    · rw [if_pos hcol] at hok
      simp at hok
    · rw [if_neg hcol] at hok ⊢
      rcases hw : env.walkRes i with _ | e
      · rw [hw] at hok
        dsimp only at hok ⊢
        by_cases heq : env.readPost i dfld = env.readPre i dfld
        · rw [if_pos heq] at hok
          simp at hok
        · rw [if_neg heq] at hok ⊢
          dsimp only at hok ⊢
          obtain ⟨ht, hl1, hl2⟩ := ih (i + 1) _ _ s1 s2 hok
          refine ⟨?_, by simp at hl1 ⊢; omega, by simp at hl2 ⊢; omega⟩
          rw [okTrace, ht]
          simp [channelTrace]
      · rw [hw] at hok
        dsimp only at hok ⊢
        by_cases hce : caught e = true
        · rw [if_pos hce] at hok ⊢
          dsimp only at hok ⊢
          by_cases heq : env.readPost i dfld = env.readPre i dfld
          · rw [if_pos heq] at hok
            simp at hok
          · rw [if_neg heq] at hok ⊢
            dsimp only at hok ⊢
            obtain ⟨ht, hl1, hl2⟩ := ih (i + 1) _ _ s1 s2 hok
            refine ⟨?_, by simp at hl1 ⊢; omega, by simp at hl2 ⊢; omega⟩
            rw [okTrace, ht]
            simp [channelTrace]
        · rw [if_neg hce] at hok
          simp at hok

/-- C10.  `detector_scaling_walk` takes no field lists: a successful
run walks exactly the channels rediscovered from the scan table's
column names — the columns containing the detector's name, zipped
positionally with the `"_pre"`-suffixed columns (suffix stripped) and
with the motor list — so the scale and start lists have one entry per
zipped channel (`min` of the discovered-field count and the motor
count), and any extraneous column matching either naming convention
becomes a calibration channel. -/
theorem channels_rediscovered_from_columns
    (df : Df) (detName : String) (motors : List String) (env : WalkEnv)
    (s1 s2 : List ℚ)
    (hok : (detector_scaling_walk df detName motors env).2 = Except.ok (s1, s2)) :
    ((dfCols df).filter (fun c => strContains c detName)).length =
      (((dfCols df).filter (fun c => strEndsWith c "_pre")).map dropLast4).length ∧
    (detector_scaling_walk df detName motors env).1 =
      okTrace df env 0
        (List.zip ((dfCols df).filter (fun c => strContains c detName))
          (List.zip (((dfCols df).filter (fun c => strEndsWith c "_pre")).map dropLast4)
            motors)) ∧
    s1.length = min ((dfCols df).filter (fun c => strContains c detName)).length
      motors.length ∧
    s2.length = s1.length := by
  unfold detector_scaling_walk at hok ⊢
  dsimp only at hok ⊢
  by_cases hlen : ((dfCols df).filter (fun c => strContains c detName)).length ≠
      (((dfCols df).filter (fun c => strEndsWith c "_pre")).map dropLast4).length
  · rw [if_pos hlen] at hok
    simp at hok
  · rw [if_neg hlen] at hok ⊢
    have hlen2 := not_ne_iff.mp hlen
    obtain ⟨ht, hl1, hl2⟩ := walkChannels_ok df env _ 0 [] [] s1 s2 hok
    refine ⟨hlen2, ht, ?_, ?_⟩
    · rw [hl1]
      simp only [List.length_zip, List.length_map, List.length_nil, Nat.zero_add]
      simp only [List.length_map] at hlen2
      omega
    · rw [hl1, hl2]

/-- Witness for C10: the extraneous columns are walked as a calibration
channel and produce a scale. -/
theorem channels_rediscovered_from_columns_witness :
    (detector_scaling_walk dfC10 "det" ["M1"] envC10).2 =
      Except.ok ([((7 : ℚ) - 2) / ((3 : ℚ) - 5)], [(2 : ℚ)]) ∧
    (((dfCols dfC10).filter (fun c => strContains c "det")).length =
        (((dfCols dfC10).filter (fun c => strEndsWith c "_pre")).map dropLast4).length ∧
      (detector_scaling_walk dfC10 "det" ["M1"] envC10).1 =
        okTrace dfC10 envC10 0
          (List.zip ((dfCols dfC10).filter (fun c => strContains c "det"))
            (List.zip (((dfCols dfC10).filter (fun c => strEndsWith c "_pre")).map dropLast4)
              ["M1"])) ∧
      ([((7 : ℚ) - 2) / ((3 : ℚ) - 5)] : List ℚ).length =
        min ((dfCols dfC10).filter (fun c => strContains c "det")).length
          (["M1"] : List String).length ∧
      ([(2 : ℚ)] : List ℚ).length = ([((7 : ℚ) - 2) / ((3 : ℚ) - 5)] : List ℚ).length) :=
  ⟨rfl, channels_rediscovered_from_columns dfC10 "det" ["M1"] envC10
    [((7 : ℚ) - 2) / ((3 : ℚ) - 5)] [(2 : ℚ)] rfl⟩

/-! ## Claims about the table builder -/

theorem hasCol_append (a b : Df) (c : String) :
    hasCol (a ++ b) c = (hasCol a c || hasCol b c) := by
  induction a with
  | nil => simp [hasCol]
  | cons p rest ih => simp [hasCol, ih, Bool.or_assoc]

theorem dfGet_append (a b : Df) (c : String) :
    dfGet (a ++ b) c = if hasCol a c = true then dfGet a c else dfGet b c := by
  induction a with
  | nil => simp [hasCol, dfGet]
  | cons p rest ih =>
    by_cases hp : p.1 = c
    · simp [hasCol, dfGet, hp]
    · simp [hasCol, dfGet, hp, ih]

theorem setCol_fresh (df : Df) (c : String) (v : List ℚ)
    (h : hasCol df c = false) : setCol df c v = df ++ [(c, v)] := by
  simp [setCol, h]

theorem genNames_append (a b : List (ℚ × ℚ × String × String)) :
    genNames (a ++ b) = genNames a ++ genNames b := by
  induction a with
  | nil => simp [genNames]
  | cons ch rest ih => simp [genNames, ih]

theorem corrSpec_append (df : Df) (a b : List (ℚ × ℚ × String × String)) :
    corrSpec df (a ++ b) = corrSpec df a ++ corrSpec df b := by
  induction a with
  | nil => simp [corrSpec]
  | cons ch rest ih => simp [corrSpec, ih]

theorem hasCol_corrSpec_false (df : Df) (n : String) :
    ∀ chans : List (ℚ × ℚ × String × String),
      n ∉ genNames chans → hasCol (corrSpec df chans) n = false
  | [], _ => rfl
  | ch :: rest, h => by
    rw [genNames] at h
    simp only [List.mem_cons, not_or] at h
    obtain ⟨h1, h2, h3⟩ := h
    rw [corrSpec, hasCol_append, hasCol_corrSpec_false df n rest h3]
    simp [chanCols, hasCol, Ne.symm h1, Ne.symm h2]

/-- When every dcol is nonempty and every generated name is fresh (no
duplicates among themselves, none present in the accumulator), the
channel loop of `build_calibration_df` reduces to appending the
per-channel column pairs. -/
theorem buildCorrections_eq (df : Df) :
    ∀ (chans : List (ℚ × ℚ × String × String)) (acc : Df),
      (∀ ch ∈ chans, dfGet df ch.2.2.2 ≠ []) →
      (genNames chans).Nodup →
      (∀ n ∈ genNames chans, hasCol acc n = false) →
      buildCorrections df chans acc = Except.ok (acc ++ corrSpec df chans)
  | [], acc, _, _, _ => by simp [buildCorrections, corrSpec]
  | (scale, start, cfld, dfld) :: rest, acc, hne, hnd, hfresh => by
    have hcol : dfGet df dfld ≠ [] :=
      hne (scale, start, cfld, dfld) (List.mem_cons_self _ _)
    rcases hd : dfGet df dfld with _ | ⟨d0, dtail⟩
    · exact absurd hd hcol
    rw [buildCorrections, hd]
    dsimp only
    rw [genNames] at hnd hfresh
    have habs : hasCol acc (cfld ++ "_post_abs") = false := hfresh _ (by simp)
    have hrel : hasCol acc (cfld ++ "_post_rel") = false := hfresh _ (by simp)
    have hab_ne : (cfld ++ "_post_abs") ≠ (cfld ++ "_post_rel") := by
      simp only [List.nodup_cons, List.mem_cons] at hnd
      exact fun h => hnd.1 (Or.inl h)
    rw [setCol_fresh _ _ _ habs,
      setCol_fresh _ _ _ (by
        rw [hasCol_append, hrel]
        simp [hasCol, hab_ne])]
    have hnd2 : (genNames rest).Nodup := by
      simp only [List.nodup_cons] at hnd
      exact hnd.2.2
    have hfresh2 : ∀ n ∈ genNames rest,
        hasCol ((acc ++ [(cfld ++ "_post_abs", corrAbsVals start scale d0 (d0 :: dtail))]) ++
          [(cfld ++ "_post_rel",
            List.zipWith (fun a b => a - b) (corrAbsVals start scale d0 (d0 :: dtail))
              (dfGet df (cfld ++ "_pre")))]) n = false := by
      intro n hn
      simp only [List.nodup_cons, List.mem_cons] at hnd
      have hna : (cfld ++ "_post_abs") ≠ n := fun h => hnd.1 (Or.inr (h ▸ hn))
      have hnr : (cfld ++ "_post_rel") ≠ n := fun h => hnd.2.1 (h ▸ hn)
      rw [hasCol_append, hasCol_append, hfresh n (by simp [hn])]
      simp [hasCol, hna, hnr]
    rw [buildCorrections_eq df rest _ (fun ch hch => hne ch (by simp [hch])) hnd2 hfresh2]
    rw [corrSpec]
    simp only [chanCols, hd]
    simp [List.append_assoc]

/-- Characterization of `build_calibration_df`: under the validation
check, nonempty detector columns and fresh generated names, it returns
the selected motor columns followed by the per-channel correction
columns. -/
theorem build_calibration_df_eq
    (df : Df) (scaling starts : List ℚ) (detName : String)
    (hlen : ((dfCols df).filter (fun c => strContains c detName)).length =
      (((dfCols df).filter (fun c => strEndsWith c "_pre")).map dropLast4).length)
    (hne : ∀ ch ∈ List.zip scaling (List.zip starts
        (List.zip (((dfCols df).filter (fun c => strEndsWith c "_pre")).map dropLast4)
          ((dfCols df).filter (fun c => strContains c detName)))),
      dfGet df ch.2.2.2 ≠ [])
    (hnd : (genNames (List.zip scaling (List.zip starts
        (List.zip (((dfCols df).filter (fun c => strEndsWith c "_pre")).map dropLast4)
          ((dfCols df).filter (fun c => strContains c detName)))))).Nodup) :
    build_calibration_df df scaling starts detName =
      Except.ok (selectCols df ((dfCols df).filter
          (fun c => !(((dfCols df).filter (fun c => strContains c detName)).contains c) &&
            !(strEndsWith c "_pre"))) ++
        corrSpec df (List.zip scaling (List.zip starts
          (List.zip (((dfCols df).filter (fun c => strEndsWith c "_pre")).map dropLast4)
            ((dfCols df).filter (fun c => strContains c detName)))))) := by
  unfold build_calibration_df
  dsimp only
  rw [if_neg (by simp [hlen])]
  rw [buildCorrections_eq df _ [] hne hnd (fun n _ => rfl)]
  simp

/-- C9.  `build_calibration_df` is pure: in the embedding it is a plain
function (the source function is not a generator and issues no plan
messages), its result is the same closed-form table on every
invocation with the same scan table, scaling list, start positions and
detector name, and the input frame is only read, never reassigned. -/
theorem build_calibration_df_pure
    (df : Df) (scaling starts : List ℚ) (detName : String)
    (hlen : ((dfCols df).filter (fun c => strContains c detName)).length =
      (((dfCols df).filter (fun c => strEndsWith c "_pre")).map dropLast4).length)
    (hne : ∀ ch ∈ List.zip scaling (List.zip starts
        (List.zip (((dfCols df).filter (fun c => strEndsWith c "_pre")).map dropLast4)
          ((dfCols df).filter (fun c => strContains c detName)))),
      dfGet df ch.2.2.2 ≠ [])
    (hnd : (genNames (List.zip scaling (List.zip starts
        (List.zip (((dfCols df).filter (fun c => strEndsWith c "_pre")).map dropLast4)
          ((dfCols df).filter (fun c => strContains c detName)))))).Nodup) :
    build_calibration_df df scaling starts detName =
      Except.ok (buildCalibrationSpec df scaling starts detName) ∧
    build_calibration_df df scaling starts detName =
      build_calibration_df df scaling starts detName :=
  ⟨build_calibration_df_eq df scaling starts detName hlen hne hnd, rfl⟩

/-- Witness for C9: the builder applied twice to the same concrete
inputs yields the same specified table. -/
theorem build_calibration_df_pure_witness :
    (((dfCols dfC9).filter (fun c => strContains c "det")).length =
      (((dfCols dfC9).filter (fun c => strEndsWith c "_pre")).map dropLast4).length) ∧
    (∀ ch ∈ List.zip [(2 : ℚ)] (List.zip [(3 : ℚ)]
        (List.zip (((dfCols dfC9).filter (fun c => strEndsWith c "_pre")).map dropLast4)
          ((dfCols dfC9).filter (fun c => strContains c "det")))),
      dfGet dfC9 ch.2.2.2 ≠ []) ∧
    ((genNames (List.zip [(2 : ℚ)] (List.zip [(3 : ℚ)]
        (List.zip (((dfCols dfC9).filter (fun c => strEndsWith c "_pre")).map dropLast4)
          ((dfCols dfC9).filter (fun c => strContains c "det")))))).Nodup) ∧
    (build_calibration_df dfC9 [(2 : ℚ)] [(3 : ℚ)] "det" =
        Except.ok (buildCalibrationSpec dfC9 [(2 : ℚ)] [(3 : ℚ)] "det") ∧
      build_calibration_df dfC9 [(2 : ℚ)] [(3 : ℚ)] "det" =
        build_calibration_df dfC9 [(2 : ℚ)] [(3 : ℚ)] "det") :=
  ⟨by decide, by decide, by decide,
    build_calibration_df_pure dfC9 [(2 : ℚ)] [(3 : ℚ)] "det"
      (by decide) (by decide) (by decide)⟩

theorem getD_map (f : ℚ → ℚ) :
    ∀ (l : List ℚ) (i : Nat), i < l.length →
      (l.map f).getD i 0 = f (l.getD i 0)
  | _ :: _, 0, _ => rfl
  | _ :: tail, i + 1, h => getD_map f tail i (Nat.lt_of_succ_lt_succ h)
  | [], _, h => absurd h (by simp)

theorem getD_zipWith (f : ℚ → ℚ → ℚ) :
    ∀ (a b : List ℚ) (i : Nat), i < a.length → i < b.length →
      (List.zipWith f a b).getD i 0 = f (a.getD i 0) (b.getD i 0)
  | _ :: _, _ :: _, 0, _, _ => rfl
  | _ :: xs, _ :: ys, i + 1, ha, hb =>
    getD_zipWith f xs ys i (Nat.lt_of_succ_lt_succ ha) (Nat.lt_of_succ_lt_succ hb)
  | [], _, _, ha, _ => absurd ha (by simp)
  | _ :: _, [], _, _, hb => absurd hb (by simp)

/-- C7.  For every channel `(scale, start, cfld, dfld)` of the zipped
channel list and every row, the built table's absolute-correction
column holds `start − (d[i] − d[0]) * scale` (hence exactly `start` at
row 0) and its relative-correction column holds the absolute correction
minus the channel's pre-correction value, as exact algebraic
identities. -/
theorem correction_column_formulas
    (df : Df) (scaling starts : List ℚ) (detName : String)
    (scale start : ℚ) (cfld dfld : String)
    (pre post : List (ℚ × ℚ × String × String)) (out : Df)
    (hok : build_calibration_df df scaling starts detName = Except.ok out)
    (hsplit : List.zip scaling (List.zip starts
        (List.zip (((dfCols df).filter (fun c => strEndsWith c "_pre")).map dropLast4)
          ((dfCols df).filter (fun c => strContains c detName)))) =
      pre ++ (scale, start, cfld, dfld) :: post)
    (hlen : ((dfCols df).filter (fun c => strContains c detName)).length =
      (((dfCols df).filter (fun c => strEndsWith c "_pre")).map dropLast4).length)
    (hne : ∀ ch ∈ List.zip scaling (List.zip starts
        (List.zip (((dfCols df).filter (fun c => strEndsWith c "_pre")).map dropLast4)
          ((dfCols df).filter (fun c => strContains c detName)))),
      dfGet df ch.2.2.2 ≠ [])
    (hnd : (genNames (List.zip scaling (List.zip starts
        (List.zip (((dfCols df).filter (fun c => strEndsWith c "_pre")).map dropLast4)
          ((dfCols df).filter (fun c => strContains c detName)))))).Nodup)
    (hmabs : hasCol (selectCols df ((dfCols df).filter
        (fun c => !(((dfCols df).filter (fun c => strContains c detName)).contains c) &&
          !(strEndsWith c "_pre")))) (cfld ++ "_post_abs") = false)
    (hmrel : hasCol (selectCols df ((dfCols df).filter
        (fun c => !(((dfCols df).filter (fun c => strContains c detName)).contains c) &&
          !(strEndsWith c "_pre")))) (cfld ++ "_post_rel") = false)
    (hprelen : (dfGet df (cfld ++ "_pre")).length = (dfGet df dfld).length) :
    dfGet out (cfld ++ "_post_abs") =
      (dfGet df dfld).map (fun v => start - (v - (dfGet df dfld).getD 0 0) * scale) ∧
    (dfGet out (cfld ++ "_post_abs")).getD 0 0 = start ∧
    (∀ i < (dfGet df dfld).length,
      (dfGet out (cfld ++ "_post_abs")).getD i 0 =
        start - ((dfGet df dfld).getD i 0 - (dfGet df dfld).getD 0 0) * scale) ∧
    dfGet out (cfld ++ "_post_rel") =
      List.zipWith (fun a b => a - b) (dfGet out (cfld ++ "_post_abs"))
        (dfGet df (cfld ++ "_pre")) ∧
    (∀ i < (dfGet df dfld).length,
      (dfGet out (cfld ++ "_post_rel")).getD i 0 =
        (dfGet out (cfld ++ "_post_abs")).getD i 0 -
          (dfGet df (cfld ++ "_pre")).getD i 0) := by
  rw [build_calibration_df_eq df scaling starts detName hlen hne hnd] at hok
  have hout := Except.ok.inj hok
  subst hout
  have hdfne : dfGet df dfld ≠ [] := by
    refine hne (scale, start, cfld, dfld) ?_
    rw [hsplit]
    exact List.mem_append_right _ (List.mem_cons_self _ _)
  rw [hsplit, genNames_append] at hnd
  rw [genNames] at hnd
  dsimp only at hnd
  rw [List.nodup_append] at hnd
  obtain ⟨-, hnd2, hdisj⟩ := hnd
  have habs_notpre : (cfld ++ "_post_abs") ∉ genNames pre := by
    intro hmem
    exact hdisj hmem (by simp)
  have hrel_notpre : (cfld ++ "_post_rel") ∉ genNames pre := by
    intro hmem
    exact hdisj hmem (by simp)
  have hab_ne : (cfld ++ "_post_abs") ≠ (cfld ++ "_post_rel") := by
    simp only [List.nodup_cons, List.mem_cons] at hnd2
    exact fun h => hnd2.1 (Or.inl h)
  have habs_col : dfGet (selectCols df ((dfCols df).filter
      (fun c => !(((dfCols df).filter (fun c => strContains c detName)).contains c) &&
        !(strEndsWith c "_pre"))) ++
      corrSpec df (pre ++ (scale, start, cfld, dfld) :: post)) (cfld ++ "_post_abs") =
      corrAbsVals start scale ((dfGet df dfld).getD 0 0) (dfGet df dfld) := by
    rw [dfGet_append, hmabs, if_neg (by simp)]
    rw [corrSpec_append, dfGet_append, hasCol_corrSpec_false df _ pre habs_notpre,
      if_neg (by simp)]
    rw [corrSpec]
    simp [chanCols, dfGet]
  have hrel_col : dfGet (selectCols df ((dfCols df).filter
      (fun c => !(((dfCols df).filter (fun c => strContains c detName)).contains c) &&
        !(strEndsWith c "_pre"))) ++
      corrSpec df (pre ++ (scale, start, cfld, dfld) :: post)) (cfld ++ "_post_rel") =
      List.zipWith (fun a b => a - b)
        (corrAbsVals start scale ((dfGet df dfld).getD 0 0) (dfGet df dfld))
        (dfGet df (cfld ++ "_pre")) := by
    rw [dfGet_append, hmrel, if_neg (by simp)]
    rw [corrSpec_append, dfGet_append, hasCol_corrSpec_false df _ pre hrel_notpre,
      if_neg (by simp)]
    rw [corrSpec]
    simp [chanCols, dfGet, hab_ne]
  rw [hsplit, habs_col, hrel_col]
  refine ⟨by simp [corrAbsVals], ?_, ?_, by simp [corrAbsVals], ?_⟩
  · rcases hd : dfGet df dfld with _ | ⟨d0, dtail⟩
    · exact absurd hd hdfne
    · simp [corrAbsVals]
  · intro i hi
    rw [corrAbsVals, getD_map _ _ i hi]
  · intro i hi
    rw [getD_zipWith _ _ _ i (by simp [corrAbsVals, hi]) (by rw [hprelen]; exact hi)]

/-- Witness for C7: the single channel `(2, 3, cm1, det_x)` of the
concrete table `dfC9` satisfies every formula. -/
theorem correction_column_formulas_witness :
    (build_calibration_df dfC9 [(2 : ℚ)] [(3 : ℚ)] "det" =
      Except.ok (selectCols dfC9 ((dfCols dfC9).filter
          (fun c => !(((dfCols dfC9).filter (fun c => strContains c "det")).contains c) &&
            !(strEndsWith c "_pre"))) ++
        corrSpec dfC9 (List.zip [(2 : ℚ)] (List.zip [(3 : ℚ)]
          (List.zip (((dfCols dfC9).filter (fun c => strEndsWith c "_pre")).map dropLast4)
            ((dfCols dfC9).filter (fun c => strContains c "det"))))))) ∧
    (List.zip [(2 : ℚ)] (List.zip [(3 : ℚ)]
        (List.zip (((dfCols dfC9).filter (fun c => strEndsWith c "_pre")).map dropLast4)
          ((dfCols dfC9).filter (fun c => strContains c "det")))) =
      [] ++ ((2 : ℚ), (3 : ℚ), "cm1", "det_x") :: []) ∧
    (dfGet (selectCols dfC9 ((dfCols dfC9).filter
        (fun c => !(((dfCols dfC9).filter (fun c => strContains c "det")).contains c) &&
          !(strEndsWith c "_pre"))) ++
      corrSpec dfC9 (List.zip [(2 : ℚ)] (List.zip [(3 : ℚ)]
        (List.zip (((dfCols dfC9).filter (fun c => strEndsWith c "_pre")).map dropLast4)
          ((dfCols dfC9).filter (fun c => strContains c "det"))))))
      ("cm1" ++ "_post_abs") =
        (dfGet dfC9 "det_x").map
          (fun v => 3 - (v - (dfGet dfC9 "det_x").getD 0 0) * 2) ∧
      (dfGet (selectCols dfC9 ((dfCols dfC9).filter
        (fun c => !(((dfCols dfC9).filter (fun c => strContains c "det")).contains c) &&
          !(strEndsWith c "_pre"))) ++
      corrSpec dfC9 (List.zip [(2 : ℚ)] (List.zip [(3 : ℚ)]
        (List.zip (((dfCols dfC9).filter (fun c => strEndsWith c "_pre")).map dropLast4)
          ((dfCols dfC9).filter (fun c => strContains c "det"))))))
        ("cm1" ++ "_post_abs")).getD 0 0 = 3 ∧
      (∀ i < (dfGet dfC9 "det_x").length,
        (dfGet (selectCols dfC9 ((dfCols dfC9).filter
          (fun c => !(((dfCols dfC9).filter (fun c => strContains c "det")).contains c) &&
            !(strEndsWith c "_pre"))) ++
        corrSpec dfC9 (List.zip [(2 : ℚ)] (List.zip [(3 : ℚ)]
          (List.zip (((dfCols dfC9).filter (fun c => strEndsWith c "_pre")).map dropLast4)
            ((dfCols dfC9).filter (fun c => strContains c "det"))))))
          ("cm1" ++ "_post_abs")).getD i 0 =
          3 - ((dfGet dfC9 "det_x").getD i 0 - (dfGet dfC9 "det_x").getD 0 0) * 2) ∧
      dfGet (selectCols dfC9 ((dfCols dfC9).filter
        (fun c => !(((dfCols dfC9).filter (fun c => strContains c "det")).contains c) &&
          !(strEndsWith c "_pre"))) ++
      corrSpec dfC9 (List.zip [(2 : ℚ)] (List.zip [(3 : ℚ)]
        (List.zip (((dfCols dfC9).filter (fun c => strEndsWith c "_pre")).map dropLast4)
          ((dfCols dfC9).filter (fun c => strContains c "det"))))))
        ("cm1" ++ "_post_rel") =
        List.zipWith (fun a b => a - b)
          (dfGet (selectCols dfC9 ((dfCols dfC9).filter
            (fun c => !(((dfCols dfC9).filter (fun c => strContains c "det")).contains c) &&
              !(strEndsWith c "_pre"))) ++
          corrSpec dfC9 (List.zip [(2 : ℚ)] (List.zip [(3 : ℚ)]
            (List.zip (((dfCols dfC9).filter (fun c => strEndsWith c "_pre")).map dropLast4)
              ((dfCols dfC9).filter (fun c => strContains c "det"))))))
            ("cm1" ++ "_post_abs"))
          (dfGet dfC9 ("cm1" ++ "_pre")) ∧
      (∀ i < (dfGet dfC9 "det_x").length,
        (dfGet (selectCols dfC9 ((dfCols dfC9).filter
          (fun c => !(((dfCols dfC9).filter (fun c => strContains c "det")).contains c) &&
            !(strEndsWith c "_pre"))) ++
        corrSpec dfC9 (List.zip [(2 : ℚ)] (List.zip [(3 : ℚ)]
          (List.zip (((dfCols dfC9).filter (fun c => strEndsWith c "_pre")).map dropLast4)
            ((dfCols dfC9).filter (fun c => strContains c "det"))))))
          ("cm1" ++ "_post_rel")).getD i 0 =
          (dfGet (selectCols dfC9 ((dfCols dfC9).filter
            (fun c => !(((dfCols dfC9).filter (fun c => strContains c "det")).contains c) &&
              !(strEndsWith c "_pre"))) ++
          corrSpec dfC9 (List.zip [(2 : ℚ)] (List.zip [(3 : ℚ)]
            (List.zip (((dfCols dfC9).filter (fun c => strEndsWith c "_pre")).map dropLast4)
              ((dfCols dfC9).filter (fun c => strContains c "det"))))))
            ("cm1" ++ "_post_abs")).getD i 0 -
            (dfGet dfC9 ("cm1" ++ "_pre")).getD i 0)) :=
  ⟨build_calibration_df_eq dfC9 [(2 : ℚ)] [(3 : ℚ)] "det"
      (by decide) (by decide) (by decide),
    by decide,
    correction_column_formulas dfC9 [(2 : ℚ)] [(3 : ℚ)] "det" 2 3 "cm1" "det_x"
      [] [] _
      (build_calibration_df_eq dfC9 [(2 : ℚ)] [(3 : ℚ)] "det"
        (by decide) (by decide) (by decide))
      (by decide) (by decide) (by decide) (by decide)
      (by decide) (by decide) (by decide)⟩

end HXRSnD
